import Mathlib

/-!
Verification of the lithium-hedge-cloud hedge/exposure calculator.

Shallow embedding of the numeric core of `app_cloud.py` (scenario sweep,
exposure calculator, Black-Scholes pricing) and of the persistence tail of
`hedge_calculation` / `save_analysis_result` (`utils/supabase_client.py`).
Python floats are embedded as exact arithmetic (`ℚ` for the algebraic parts,
`ℝ` for the transcendental Black-Scholes formulas); fallible calls are
embedded as explicit outcome parameters.
-/

/-! ## Multi-scenario comparator (`render_scenario_page`, app_cloud.py 1979-2001) -/

/-- Embedding of `np.round` on exact values: round to the nearest integer,
ties going to the nearest even integer (IEEE / numpy `round` semantics). -/
def np_round (q : ℚ) : ℤ :=
  let f := ⌊q⌋
  let r := q - f
  if r < 1/2 then f
  else if 1/2 < r then f + 1
  else if Even f then f else f + 1

/-- `hedge_contracts = int(np.round(inventory * hedge_ratio))` (line 1981).
`int` of an integral float is that integer, so the composition is `np_round`. -/
def hedge_contracts (inventory hedge_ratio : ℚ) : ℤ :=
  np_round (inventory * hedge_ratio)

/-- `scenario_price = current_price * (1 + change)` (line 1992). -/
def scenario_price (current_price change : ℚ) : ℚ :=
  current_price * (1 + change)

/-- `spot_profit = (scenario_price - cost_price) * inventory` (line 1993);
this is the "不套保盈亏" (no-hedge profit) column. -/
def spot_profit (current_price cost_price inventory change : ℚ) : ℚ :=
  (scenario_price current_price change - cost_price) * inventory

/-- `futures_profit = (current_price - scenario_price) * hedge_contracts` (line 1994). -/
def futures_profit (current_price change : ℚ) (hc : ℤ) : ℚ :=
  (current_price - scenario_price current_price change) * (hc : ℚ)

/-- `hedge_profit = spot_profit + futures_profit` (line 1995);
this is the "套保后盈亏" (hedged profit) column. -/
def hedge_profit (current_price cost_price inventory change : ℚ) (hc : ℤ) : ℚ :=
  spot_profit current_price cost_price inventory change + futures_profit current_price change hc

/-- Rounding half away from zero (四舍五入), the rule the report text of
`hedge_calculation` (line 349) claims is used for the contract count. -/
def round_half_away (q : ℚ) : ℤ :=
  if 0 ≤ q then ⌊q + 1/2⌋ else ⌈q - 1/2⌉

/-! ## Exposure calculator (`render_exposure_page`, app_cloud.py 1892-1901) -/

/-- `total_exposure = future_purchase + inventory - locked_sales` (line 1892);
the spec calls this `net_exposure`. -/
def total_exposure (future_purchase inventory locked_sales : ℚ) : ℚ :=
  future_purchase + inventory - locked_sales

/-- `total_volume = future_purchase + inventory + locked_sales` (line 1893). -/
def total_volume (future_purchase inventory locked_sales : ℚ) : ℚ :=
  future_purchase + inventory + locked_sales

/-- `exposure_ratio = abs(total_exposure) / total_volume if total_volume > 0 else 0`
(line 1894). -/
def exposure_ratio (future_purchase inventory locked_sales : ℚ) : ℚ :=
  if 0 < total_volume future_purchase inventory locked_sales then
    |total_exposure future_purchase inventory locked_sales| /
      total_volume future_purchase inventory locked_sales
  else 0

/-- Risk-level classification (lines 1896-1901): "低" (low) below 0.2,
"中" (medium) below 0.5, otherwise "高" (high). -/
def risk_level (future_purchase inventory locked_sales : ℚ) : String :=
  if exposure_ratio future_purchase inventory locked_sales < 0.2 then "低"
  else if exposure_ratio future_purchase inventory locked_sales < 0.5 then "中"
  else "高"

/-! ## Hedge breakeven (hedge_calculation)

The arithmetic body of `hedge_calculation` is absent from `src/`
(`app_cloud.py` is truncated between the cache lookup of
`fetch_real_time_data` and the plotting section); only the uses of the
breakeven at lines 306-308 (branching on `inventory != hedge_contracts_int`)
and the returned `hedge_breakeven` field (lines 437-446) survive. -/

/-- Modelled from the spec: the hedge-breakeven computation of
`hedge_calculation`, whose defining statements are missing from `src/`.
Per spec §4.1: if `inventory == hedge_contracts_int` the result is the
non-numeric "fully hedged, price-invariant" sentinel (embedded as `none`);
otherwise it is `(cost_price·inventory − current_price·hedge_contracts_int) /
(inventory − hedge_contracts_int)`. -/
def hedge_breakeven (cost_price current_price inventory : ℚ) (hc : ℤ) : Option ℚ :=
  if inventory = (hc : ℚ) then none
  else some ((cost_price * inventory - current_price * (hc : ℚ)) / (inventory - (hc : ℚ)))

/-! ## Price chart guard logic (`get_price_chart`, app_cloud.py 448-489)

The matplotlib figure construction and the statistics text are I/O and
presentation; the figure is embedded as the selected price column, which is
the data the success path commits to before any plotting happens. -/

/-- A fetched price frame: its column names and its row count. -/
structure DataFrame where
  columns : List String
  nrows : Nat
deriving DecidableEq

/-- `price_data.empty` in pandas: no rows. -/
def DataFrame.isEmpty (df : DataFrame) : Bool :=
  df.nrows == 0

/-- The candidate price columns probed in order at line 483. -/
def price_col_candidates : List String :=
  ["收盘价", "收盘", "close", "Close", "价格", "price"]

/-- The `for c in [...]: if c in display_data.columns` search (lines 482-486). -/
def find_price_col (cols : List String) : Option String :=
  price_col_candidates.find? (fun c => cols.contains c)

/-- Embedding of `get_price_chart`: `none` input stands for
`fetch_real_time_data()` returning `None`. Returns the figure (or `None`)
paired with the message text, exactly following the three return
statements at lines 454, 489 and 574. -/
def get_price_chart (price_data : Option DataFrame) : Option String × String :=
  match price_data with
  | none => (none, "数据获取失败")
  | some df =>
    if df.isEmpty then (none, "数据获取失败")
    else
      match find_price_col df.columns with
      | none => (none, "价格数据列缺失")
      | some c => (some c, "统计")

/-! ## Persistence tail (`save_analysis_result`, supabase_client.py 367-391;
`hedge_calculation` tail, app_cloud.py 408-446) -/

/-- Outcome of the `insert(...).execute()` call (and of anything else inside
the `try` block of `save_analysis_result`): a response whose `data` is truthy
or falsy, or an exception raised anywhere in the block. -/
inductive InsertOutcome where
  | ok (hasData : Bool)
  | raised
deriving DecidableEq

/-- Embedding of `SupabaseManager.save_analysis_result` (lines 367-391):
builds `analysis_id = "ana_" + token_hex`, inserts, and returns the id when
the response has data, `""` when it does not, and `""` when any exception is
raised (the `except` clause catches everything). -/
def save_analysis_result (token_hex : String) (outcome : InsertOutcome) : String :=
  match outcome with
  | .ok true => "ana_" ++ token_hex
  | .ok false => ""
  | .raised => ""

/-- The metrics dict returned by `hedge_calculation` (lines 437-446). -/
structure HedgeMetrics where
  current_price : ℚ
  hedge_contracts_int : ℤ
  total_margin : ℚ
  current_profit : ℚ
  profit_percentage : ℚ
  latest_date : String
  no_hedge_breakeven : ℚ
  hedge_breakeven_str : String
deriving DecidableEq

/-- Embedding of the tail of `hedge_calculation` (lines 408-446): when a
backend and a logged-in session exist, save the analysis; append the
"分析记录" line only when the returned id is non-empty; then return the
figure, the joined suggestions and the metrics dict unconditionally. -/
def hedge_calculation_tail (has_session : Bool) (token_hex : String)
    (outcome : InsertOutcome) (fig : String) (suggestions : List String)
    (metrics : HedgeMetrics) : String × String × HedgeMetrics :=
  let suggestions2 :=
    if has_session then
      let analysis_id := save_analysis_result token_hex outcome
      if analysis_id ≠ "" then
        suggestions ++ ["分析记录：已保存到云端 (ID: " ++ analysis_id ++ ")"]
      else suggestions
    else suggestions
  (fig, String.intercalate "\n" suggestions2, metrics)


/-! ## Black-Scholes pricing (app_cloud.py 600-616) -/

open intervalIntegral in
/-- The Gauss error function, the mathematical function computed by
`math.erf`: `erf x = 2/√π · ∫_0^x e^(−t²) dt`. -/
noncomputable def erf (x : ℝ) : ℝ :=
  2 / Real.sqrt Real.pi * ∫ t in (0:ℝ)..x, Real.exp (-(t ^ 2))

/-- Embedding of `_norm_cdf` (line 600): `0.5 * (1 + erf (x / √2))`. -/
noncomputable def norm_cdf (x : ℝ) : ℝ :=
  0.5 * (1 + erf (x / Real.sqrt 2))

/-- Embedding of `black_scholes_price` (lines 604-616). -/
noncomputable def black_scholes_price (option_type : String)
    (spot strike time_years risk_free volatility : ℝ) : ℝ :=
  if spot ≤ 0 ∨ strike ≤ 0 ∨ time_years ≤ 0 ∨ volatility ≤ 0 then 0
  else
    let d1 := (Real.log (spot / strike) +
        (risk_free + 0.5 * volatility ^ 2) * time_years) /
      (volatility * Real.sqrt time_years)
    let d2 := d1 - volatility * Real.sqrt time_years
    if option_type = "call" then
      spot * norm_cdf d1 -
        strike * Real.exp (-risk_free * time_years) * norm_cdf d2
    else
      strike * Real.exp (-risk_free * time_years) * norm_cdf (-d2) -
        spot * norm_cdf (-d1)

/-- The premium exactly as the spec's reference definition words it
(spec §4.1): `d1 = (ln(spot/strike) + (r + 0.5σ²)·t)/(σ√t)`, `d2 = d1 − σ√t`,
call = `spot·Φ(d1) − strike·e^(−rt)·Φ(d2)`, put = `strike·e^(−rt)·Φ(−d2) −
spot·Φ(−d1)`, with `Φ(x) = 0.5·(1 + erf(x/√2))`. -/
noncomputable def spec_premium (option_type : String)
    (spot strike t r sigma : ℝ) : ℝ :=
  let Phi : ℝ → ℝ := fun x => 0.5 * (1 + erf (x / Real.sqrt 2))
  let d1 := (Real.log (spot / strike) + (r + 0.5 * sigma ^ 2) * t) /
    (sigma * Real.sqrt t)
  let d2 := d1 - sigma * Real.sqrt t
  if option_type = "call" then
    spot * Phi d1 - strike * Real.exp (-(r * t)) * Phi d2
  else
    strike * Real.exp (-(r * t)) * Phi (-d2) - spot * Phi (-d1)

/-! ## Theorems -/

/-- C3: for every scenario price change, current price, cost price, inventory
and hedge contract count, `hedge_profit − no_hedge_profit` (the no-hedge
profit is `spot_profit`) equals `(current_price − current_price·(1+Δ)) ·
hedge_contracts` — the hedge overlay is exactly the futures leg, and the
right-hand side does not mention `cost_price`. -/
theorem hedge_overlay_is_futures_leg
    (current_price cost_price inventory change : ℚ) (hc : ℤ) :
    hedge_profit current_price cost_price inventory change hc -
      spot_profit current_price cost_price inventory change =
      (current_price - current_price * (1 + change)) * (hc : ℚ) := by
  simp [hedge_profit, futures_profit, scenario_price]

/-- C4: whenever the hedge contract count equals the inventory, the hedged
scenario profit is `(current_price − cost_price)·inventory` for every price
change Δ — a full hedge makes the P&L price-invariant. -/
theorem full_hedge_price_invariant
    (current_price cost_price inventory change : ℚ) (hc : ℤ)
    (h : (hc : ℚ) = inventory) :
    hedge_profit current_price cost_price inventory change hc =
      (current_price - cost_price) * inventory := by
  simp only [hedge_profit, spot_profit, futures_profit, scenario_price, h]
  ring

/-- Witness for C4: with current price 120000, cost 100000, inventory 100 and
100 contracts, the hedged profit is 2,000,000 at three distinct shocks. -/
theorem full_hedge_price_invariant_witness :
    (((100 : ℤ) : ℚ) = 100) ∧
    hedge_profit 120000 100000 100 (1/10) 100 = (120000 - 100000) * 100 ∧
    hedge_profit 120000 100000 100 (-1/2) 100 = (120000 - 100000) * 100 ∧
    hedge_profit 120000 100000 100 0 100 = (120000 - 100000) * 100 :=
  ⟨by norm_num,
   full_hedge_price_invariant 120000 100000 100 (1/10) 100 (by norm_num),
   full_hedge_price_invariant 120000 100000 100 (-1/2) 100 (by norm_num),
   full_hedge_price_invariant 120000 100000 100 0 100 (by norm_num)⟩

/-- C5: for non-negative inputs the exposure calculator returns
`net_exposure = future + inventory − locked` (named `total_exposure` in the
code), the ratio `|net|/total` with 0 for zero total volume, and classifies
"低"/"中"/"高" (low/medium/high) at the 0.2 and 0.5 thresholds; concretely,
(200, 100, 80) gives net exposure 220 and risk level "高" (high). -/
theorem exposure_calculator_correct (f i l : ℚ)
    (hf : 0 ≤ f) (hi : 0 ≤ i) (hl : 0 ≤ l) :
    total_exposure f i l = f + i - l ∧
    (total_volume f i l = 0 → exposure_ratio f i l = 0) ∧
    (total_volume f i l ≠ 0 →
      exposure_ratio f i l = |total_exposure f i l| / total_volume f i l) ∧
    (exposure_ratio f i l < 0.2 → risk_level f i l = "低") ∧
    (0.2 ≤ exposure_ratio f i l → exposure_ratio f i l < 0.5 →
      risk_level f i l = "中") ∧
    (0.5 ≤ exposure_ratio f i l → risk_level f i l = "高") ∧
    total_exposure 200 100 80 = 220 ∧ risk_level 200 100 80 = "高" := by
  have htv : 0 ≤ total_volume f i l := by
    simp only [total_volume]; linarith
  refine ⟨rfl, ?_, ?_, ?_, ?_, ?_, by norm_num [total_exposure],
    by norm_num [risk_level, exposure_ratio, total_exposure, total_volume]⟩
  · intro h0
    simp [exposure_ratio, h0]
  · intro hne
    have : 0 < total_volume f i l := lt_of_le_of_ne htv (Ne.symm hne)
    simp [exposure_ratio, this]
  · intro hlt
    simp [risk_level, hlt]
  · intro hge hlt
    simp [risk_level, not_lt.mpr hge, hlt]
  · intro hge
    have h2 : ¬ exposure_ratio f i l < 0.2 := by
      push_neg; linarith
    have h5 : ¬ exposure_ratio f i l < 0.5 := not_lt.mpr hge
    simp [risk_level, h2, h5]

/-- Witness for C5: the concrete exposure instance (200, 100, 80). -/
theorem exposure_calculator_correct_witness :
    total_exposure 200 100 80 = 220 ∧ risk_level 200 100 80 = "高" :=
  ⟨(exposure_calculator_correct 200 100 80 (by norm_num) (by norm_num)
      (by norm_num)).2.2.2.2.2.2.1,
   (exposure_calculator_correct 200 100 80 (by norm_num) (by norm_num)
      (by norm_num)).2.2.2.2.2.2.2⟩

/-- C6: when the inventory equals the contract count, `hedge_breakeven` is the
non-numeric "fully hedged, price-invariant" sentinel (`none`); otherwise it is
`(cost·inventory − current·contracts)/(inventory − contracts)`, and that price
zeroes the sum of the spot profit and the futures profit. -/
theorem hedge_breakeven_correct
    (cost_price current_price inventory : ℚ) (hc : ℤ) :
    (inventory = (hc : ℚ) →
      hedge_breakeven cost_price current_price inventory hc = none) ∧
    (inventory ≠ (hc : ℚ) →
      hedge_breakeven cost_price current_price inventory hc =
        some ((cost_price * inventory - current_price * (hc : ℚ)) /
          (inventory - (hc : ℚ))) ∧
      ∀ P : ℚ, hedge_breakeven cost_price current_price inventory hc = some P →
        (P - cost_price) * inventory + (current_price - P) * (hc : ℚ) = 0) := by
  constructor
  · intro h
    simp [hedge_breakeven, h]
  · intro h
    have heq : hedge_breakeven cost_price current_price inventory hc =
        some ((cost_price * inventory - current_price * (hc : ℚ)) /
          (inventory - (hc : ℚ))) := by
      simp [hedge_breakeven, h]
    refine ⟨heq, ?_⟩
    intro P hP
    rw [heq] at hP
    have hsub : inventory - (hc : ℚ) ≠ 0 := sub_ne_zero.mpr h
    have hPval := Option.some.inj hP
    subst hPval
    field_simp
    ring

/-- Witness for C6: cost 100000, current price 120000, inventory 100; with 80
contracts the breakeven is 20000 and zeroes the combined profit, with 100
contracts the sentinel is returned. -/
theorem hedge_breakeven_correct_witness :
    hedge_breakeven 100000 120000 100 100 = none ∧
    hedge_breakeven 100000 120000 100 80 = some 20000 ∧
    ((20000 : ℚ) - 100000) * 100 + (120000 - 20000) * ((80 : ℤ) : ℚ) = 0 := by
  have h2 := (hedge_breakeven_correct 100000 120000 100 80).2 (by norm_num)
  have heq : hedge_breakeven 100000 120000 100 80 = some 20000 := by
    rw [h2.1]; norm_num
  exact ⟨(hedge_breakeven_correct 100000 120000 100 100).1 (by norm_num),
    heq, h2.2 20000 heq⟩

/-- C7: when the fetched price series is missing, empty, or has no usable
price column, `get_price_chart` returns `none` for the figure together with
the corresponding error message; conversely, whenever the figure is `none`
the message is one of the two errors — never a partial result object. -/
theorem price_chart_fails_deterministically (pd : Option DataFrame) :
    ((pd = none ∨ ∃ df, pd = some df ∧
        (df.isEmpty = true ∨ find_price_col df.columns = none)) →
      (get_price_chart pd).1 = none ∧
      ((get_price_chart pd).2 = "数据获取失败" ∨
        (get_price_chart pd).2 = "价格数据列缺失")) ∧
    ((get_price_chart pd).1 = none →
      (get_price_chart pd).2 = "数据获取失败" ∨
        (get_price_chart pd).2 = "价格数据列缺失") := by
  cases pd with
  | none => exact ⟨fun _ => ⟨rfl, Or.inl rfl⟩, fun _ => Or.inl rfl⟩
  | some df =>
    cases hemp : df.isEmpty with
    | true =>
      exact ⟨fun _ => by simp [get_price_chart, hemp],
        fun _ => by simp [get_price_chart, hemp]⟩
    | false =>
      cases hfind : find_price_col df.columns with
      | none =>
        exact ⟨fun _ => by simp [get_price_chart, hemp, hfind],
          fun _ => by simp [get_price_chart, hemp, hfind]⟩
      | some c =>
        constructor
        · rintro (h | ⟨df', hdf', h⟩)
          · exact absurd h (by simp)
          · obtain rfl : df = df' := Option.some.inj hdf'
            simp [hemp, hfind] at h
        · intro h1
          exact absurd h1 (by simp [get_price_chart, hemp, hfind])

/-- Witness for C7: a non-empty frame lacking any usable price column yields
`none` and the missing-column message. -/
theorem price_chart_fails_deterministically_witness :
    (get_price_chart (some ⟨["日期"], 5⟩)).1 = none ∧
    ((get_price_chart (some ⟨["日期"], 5⟩)).2 = "数据获取失败" ∨
      (get_price_chart (some ⟨["日期"], 5⟩)).2 = "价格数据列缺失") :=
  (price_chart_fails_deterministically (some ⟨["日期"], 5⟩)).1
    (Or.inr ⟨⟨["日期"], 5⟩, rfl, Or.inr (by decide)⟩)

/-- C8: `save_analysis_result` maps a raised exception to the empty string
instead of propagating it, and the tail of `hedge_calculation` returns the
figure and the metrics unchanged for every save outcome — persistence
failure is non-fatal. -/
theorem save_failure_nonfatal (has_session : Bool) (token_hex : String)
    (outcome : InsertOutcome) (fig : String) (suggestions : List String)
    (metrics : HedgeMetrics) :
    save_analysis_result token_hex .raised = "" ∧
    (hedge_calculation_tail has_session token_hex outcome fig suggestions
      metrics).1 = fig ∧
    (hedge_calculation_tail has_session token_hex outcome fig suggestions
      metrics).2.2 = metrics :=
  ⟨rfl, rfl, rfl⟩

/-- C10: the multi-scenario page computes the contract count as
`np_round (inventory * hedge_ratio)`, which sends the exact half 2.5 to the
even integer 2 and 3.5 to 4, while rounding half away from zero (四舍五入,
as described by the report text of `hedge_calculation`) sends 2.5 to 3 —
the two rules disagree at 2.5. -/
theorem scenario_contract_rounding_half_even :
    (∀ inventory hedge_ratio : ℚ,
      hedge_contracts inventory hedge_ratio = np_round (inventory * hedge_ratio)) ∧
    np_round (5/2) = 2 ∧ np_round (7/2) = 4 ∧
    round_half_away (5/2) = 3 ∧
    np_round (5/2) ≠ round_half_away (5/2) := by
  refine ⟨fun _ _ => rfl, by norm_num [np_round],
    by norm_num [np_round, Int.even_iff], by norm_num [round_half_away], ?_⟩
  have h1 : np_round (5/2) = 2 := by norm_num [np_round]
  have h2 : round_half_away (5/2) = 3 := by norm_num [round_half_away]
  rw [h1, h2]
  decide
/-! ### Helper lemmas about the Gaussian integral -/

lemma gauss_cont : Continuous fun t : ℝ => Real.exp (-(t ^ 2)) := by
  fun_prop

lemma gauss_intble (a b : ℝ) :
    IntervalIntegrable (fun t : ℝ => Real.exp (-(t ^ 2)))
      MeasureTheory.volume a b :=
  gauss_cont.intervalIntegrable a b

lemma gauss_integral_neg (x : ℝ) :
    ∫ t in (0:ℝ)..(-x), Real.exp (-(t ^ 2)) =
      -∫ t in (0:ℝ)..x, Real.exp (-(t ^ 2)) := by
  have h := intervalIntegral.integral_comp_neg
    (a := (0:ℝ)) (b := x) (fun t : ℝ => Real.exp (-(t ^ 2)))
  simp only [neg_sq, neg_zero] at h
  rw [intervalIntegral.integral_symm, ← h]

lemma erf_neg (x : ℝ) : erf (-x) = -erf x := by
  unfold erf
  rw [gauss_integral_neg]
  ring

lemma norm_cdf_neg (x : ℝ) : norm_cdf (-x) = 1 - norm_cdf x := by
  unfold norm_cdf
  rw [neg_div, erf_neg]
  ring

lemma gauss_pt_lower (t : ℝ) : 1 - t ^ 2 ≤ Real.exp (-(t ^ 2)) := by
  have h := Real.add_one_le_exp (-(t ^ 2))
  linarith

lemma gauss_pt_upper (t : ℝ) : Real.exp (-(t ^ 2)) ≤ 1 - t ^ 2 + t ^ 4 := by
  have h1 : t ^ 2 + 1 ≤ Real.exp (t ^ 2) := Real.add_one_le_exp (t ^ 2)
  have h2 : (0:ℝ) < Real.exp (t ^ 2) := Real.exp_pos _
  have h3 : Real.exp (-(t ^ 2)) * Real.exp (t ^ 2) = 1 := by
    rw [← Real.exp_add]; simp
  nlinarith [sq_nonneg (t ^ 2 - 1), sq_nonneg (t ^ 3), sq_nonneg t,
    Real.exp_pos (-(t ^ 2)), sq_nonneg (t ^ 2)]

lemma poly2_integral (x : ℝ) :
    ∫ t in (0:ℝ)..x, (1 - t ^ 2) = x - x ^ 3 / 3 := by
  rw [intervalIntegral.integral_sub intervalIntegrable_const
    ((continuous_pow 2).intervalIntegrable 0 x)]
  simp
  norm_num

lemma poly4_integral (x : ℝ) :
    ∫ t in (0:ℝ)..x, (1 - t ^ 2 + t ^ 4) = x - x ^ 3 / 3 + x ^ 5 / 5 := by
  rw [intervalIntegral.integral_add
    (intervalIntegrable_const.sub ((continuous_pow 2).intervalIntegrable 0 x))
    ((continuous_pow 4).intervalIntegrable 0 x)]
  rw [poly2_integral]
  simp
  norm_num

lemma gauss_integral_lower (x : ℝ) (hx : 0 ≤ x) :
    x - x ^ 3 / 3 ≤ ∫ t in (0:ℝ)..x, Real.exp (-(t ^ 2)) := by
  rw [← poly2_integral]
  exact intervalIntegral.integral_mono_on hx
    ((continuous_const.sub (continuous_pow 2)).intervalIntegrable 0 x)
    (gauss_intble 0 x) (fun t _ => gauss_pt_lower t)

lemma gauss_integral_upper (x : ℝ) (hx : 0 ≤ x) :
    (∫ t in (0:ℝ)..x, Real.exp (-(t ^ 2))) ≤ x - x ^ 3 / 3 + x ^ 5 / 5 := by
  rw [← poly4_integral]
  exact intervalIntegral.integral_mono_on hx (gauss_intble 0 x)
    (((continuous_const.sub (continuous_pow 2)).add
      (continuous_pow 4)).intervalIntegrable 0 x)
    (fun t _ => gauss_pt_upper t)

lemma sqrt_pi_pos : 0 < Real.sqrt Real.pi :=
  Real.sqrt_pos.mpr Real.pi_pos

lemma sqrt_pi_lb : (1.7724 : ℝ) < Real.sqrt Real.pi := by
  rw [show (1.7724:ℝ) = 1.7724 from rfl]
  have h : (1.7724:ℝ) ^ 2 < Real.pi := by
    nlinarith [Real.pi_gt_d4]
  exact (Real.lt_sqrt (by norm_num)).mpr h

lemma sqrt_pi_ub : Real.sqrt Real.pi < 1.7725 := by
  have h : Real.pi < (1.7725:ℝ) ^ 2 := by
    nlinarith [Real.pi_lt_d4]
  exact (Real.sqrt_lt' (by norm_num)).mpr h

lemma sqrt_two_pos : 0 < Real.sqrt 2 :=
  Real.sqrt_pos.mpr (by norm_num)

lemma sqrt_two_sq : Real.sqrt 2 ^ 2 = 2 :=
  Real.sq_sqrt (by norm_num)

lemma sqrt_two_lb : (1.4142 : ℝ) < Real.sqrt 2 :=
  (Real.lt_sqrt (by norm_num)).mpr (by norm_num)

lemma sqrt_two_ub : Real.sqrt 2 < 1.4143 :=
  (Real.sqrt_lt' (by norm_num)).mpr (by norm_num)

lemma erf_arg_eq : (1 / 10 : ℝ) / Real.sqrt 2 = Real.sqrt 2 / 20 := by
  rw [div_eq_div_iff sqrt_two_pos.ne' (by norm_num : (20:ℝ) ≠ 0)]
  nlinarith [sqrt_two_sq]

lemma erf_val_lb : (0.0792 : ℝ) ≤ erf (Real.sqrt 2 / 20) := by
  have hx : (0:ℝ) ≤ Real.sqrt 2 / 20 := by positivity
  have hI := gauss_integral_lower (Real.sqrt 2 / 20) hx
  have hlow : (599 : ℝ) * Real.sqrt 2 / 12000 ≤
      ∫ t in (0:ℝ)..(Real.sqrt 2 / 20), Real.exp (-(t ^ 2)) := by
    have he : Real.sqrt 2 / 20 - (Real.sqrt 2 / 20) ^ 3 / 3 =
        599 * Real.sqrt 2 / 12000 := by
      have h3 : (Real.sqrt 2 / 20) ^ 3 = Real.sqrt 2 ^ 2 * Real.sqrt 2 / 8000 := by
        ring
      rw [h3, sqrt_two_sq]
      ring
    linarith [he ▸ hI]
  unfold erf
  rw [div_mul_eq_mul_div, le_div_iff₀ sqrt_pi_pos]
  linarith [hlow, sqrt_two_lb, sqrt_pi_ub]

lemma erf_val_ub : erf (Real.sqrt 2 / 20) ≤ 0.0802 := by
  have hx : (0:ℝ) ≤ Real.sqrt 2 / 20 := by positivity
  have hI := gauss_integral_upper (Real.sqrt 2 / 20) hx
  have hup : (∫ t in (0:ℝ)..(Real.sqrt 2 / 20), Real.exp (-(t ^ 2))) ≤
      599 * Real.sqrt 2 / 12000 + Real.sqrt 2 / 4000000 := by
    have he : Real.sqrt 2 / 20 - (Real.sqrt 2 / 20) ^ 3 / 3 +
        (Real.sqrt 2 / 20) ^ 5 / 5 =
        599 * Real.sqrt 2 / 12000 + Real.sqrt 2 / 4000000 := by
      have h3 : (Real.sqrt 2 / 20) ^ 3 = Real.sqrt 2 ^ 2 * Real.sqrt 2 / 8000 := by
        ring
      have h5 : (Real.sqrt 2 / 20) ^ 5 =
          (Real.sqrt 2 ^ 2) ^ 2 * Real.sqrt 2 / 3200000 := by
        ring
      rw [h3, h5, sqrt_two_sq]
      ring
    linarith [he ▸ hI]
  unfold erf
  rw [div_mul_eq_mul_div, div_le_iff₀ sqrt_pi_pos]
  linarith [hup, sqrt_two_ub, sqrt_pi_lb]

lemma bs_call_ref_eq :
    black_scholes_price "call" 100 100 1 0 0.2 = 100 * erf (Real.sqrt 2 / 20) := by
  have hguard : ¬((100:ℝ) ≤ 0 ∨ (100:ℝ) ≤ 0 ∨ (1:ℝ) ≤ 0 ∨ (0.2:ℝ) ≤ 0) := by
    norm_num
  simp only [black_scholes_price, if_neg hguard, if_pos rfl]
  norm_num [Real.log_one, Real.sqrt_one, Real.exp_zero]
  rw [norm_cdf_neg]
  unfold norm_cdf
  rw [erf_arg_eq]
  ring

/-- C2: whenever `spot ≤ 0`, `strike ≤ 0`, `time_years ≤ 0` or
`volatility ≤ 0`, `black_scholes_price` returns exactly 0.0 for every option
type; the guard precedes every partial operation (`log`, `sqrt`, division),
so the embedded function is total and the Python function cannot raise. -/
theorem black_scholes_degenerate_zero (option_type : String)
    (spot strike time_years risk_free volatility : ℝ)
    (h : spot ≤ 0 ∨ strike ≤ 0 ∨ time_years ≤ 0 ∨ volatility ≤ 0) :
    black_scholes_price option_type spot strike time_years risk_free
      volatility = 0 := by
  simp only [black_scholes_price, if_pos h]

/-- Witness for C2: negative spot and zero volatility each give 0. -/
theorem black_scholes_degenerate_zero_witness :
    black_scholes_price "put" (-1) 100 1 0 (1/5) = 0 ∧
    black_scholes_price "call" 100 100 1 0 0 = 0 :=
  ⟨black_scholes_degenerate_zero "put" (-1) 100 1 0 (1/5)
      (Or.inl (by norm_num)),
   black_scholes_degenerate_zero "call" 100 100 1 0 0
      (Or.inr (Or.inr (Or.inr le_rfl)))⟩

/-- C1: for both option types and positive spot, strike, expiry and
volatility, `black_scholes_price` equals the spec's reference premium
`spec_premium` (d1/d2 via ln and σ√t, Φ via the error function). -/
theorem black_scholes_matches_spec (option_type : String)
    (spot strike time_years risk_free volatility : ℝ)
    (hopt : option_type = "call" ∨ option_type = "put")
    (hs : 0 < spot) (hk : 0 < strike) (ht : 0 < time_years)
    (hv : 0 < volatility) :
    black_scholes_price option_type spot strike time_years risk_free
        volatility =
      spec_premium option_type spot strike time_years risk_free volatility := by
  have hguard : ¬(spot ≤ 0 ∨ strike ≤ 0 ∨ time_years ≤ 0 ∨ volatility ≤ 0) := by
    push_neg
    exact ⟨hs, hk, ht, hv⟩
  rcases hopt with h | h <;> subst h <;>
    simp only [black_scholes_price, spec_premium, if_neg hguard, if_pos rfl,
      if_neg (by decide : ¬("put" = "call")), neg_mul, norm_cdf]

/-- Witness for C1: the call and the put at spot = strike = 1, one year,
unit volatility, zero rate. -/
theorem black_scholes_matches_spec_witness :
    black_scholes_price "call" 1 1 1 0 1 = spec_premium "call" 1 1 1 0 1 ∧
    black_scholes_price "put" 1 1 1 0 1 = spec_premium "put" 1 1 1 0 1 :=
  ⟨black_scholes_matches_spec "call" 1 1 1 0 1 (Or.inl rfl)
      (by norm_num) (by norm_num) (by norm_num) (by norm_num),
   black_scholes_matches_spec "put" 1 1 1 0 1 (Or.inr rfl)
      (by norm_num) (by norm_num) (by norm_num) (by norm_num)⟩

/-- C9: the reference call premium at spot 100, strike 100, one year, zero
rate and volatility 0.2 is within 0.05 of 7.97, and at a zero rate with
spot = strike the call premium equals the put premium for all positive
spot, expiry and volatility. -/
theorem black_scholes_reference_value_and_symmetry :
    |black_scholes_price "call" 100 100 1 0 0.2 - 7.97| ≤ 0.05 ∧
    ∀ s t sigma : ℝ, 0 < s → 0 < t → 0 < sigma →
      black_scholes_price "call" s s t 0 sigma =
        black_scholes_price "put" s s t 0 sigma := by
  constructor
  · rw [bs_call_ref_eq, abs_le]
    constructor <;> linarith [erf_val_lb, erf_val_ub]
  · intro s t sigma hs ht hv
    have hguard : ¬(s ≤ 0 ∨ s ≤ 0 ∨ t ≤ 0 ∨ sigma ≤ 0) := by
      push_neg
      exact ⟨hs, hs, ht, hv⟩
    simp only [black_scholes_price, if_neg hguard, if_pos rfl,
      if_neg (by decide : ¬("put" = "call"))]
    rw [norm_cdf_neg, norm_cdf_neg]
    norm_num [Real.exp_zero]
    ring

/-- Witness for C9: the put-call equality at the reference parameters. -/
theorem black_scholes_reference_value_and_symmetry_witness :
    black_scholes_price "call" 100 100 1 0 0.2 =
      black_scholes_price "put" 100 100 1 0 0.2 :=
  black_scholes_reference_value_and_symmetry.2 100 1 0.2
    (by norm_num) (by norm_num) (by norm_num)
